import Mathlib

/-!
Shallow embedding of the conversation/character core of the
`dead-inside-backend` repository (FastAPI + Redis therapy-chat service).

Source files embedded here:
  * `app/core/llm.py` — entity model (`Message`, `Conversation`,
    `CharacterContext`, `CharacterResponse`, `CharacterWithId`,
    `CharacterGenerationResponse`), conversation persistence helpers
    (`get_conversation`, `save_conversation`, `create_new_conversation`),
    the gateway wrapper `generate_character_response`, and the batch
    character pipeline (`save_character_generation_response`,
    `generate_characters_from_theme`).
  * `app/core/redis_client.py` — the record store: JSON serialization of
    records (`_prepare_for_serialization`), the conversation and character
    namespaces, and the auxiliary character membership set.
  * `app/api/routes/legacy_chat.py` — the turn orchestrator
    (`start_conversation`): resolve character and conversation, append the
    user message, call the gateway, append the reply, clamp the emotional
    score, persist, and report `session_ended`. Its own character-context
    helper (`get_character_context_from_redis`, lines 63-75) can never
    return — the `problems` key access and the `CharacterContext` keyword
    arguments are wrong — so the turn path after character resolution is
    unreachable in this route; it is embedded here as written, dead code
    included.

Modelling conventions:
  * Python `datetime` values are modelled as `Nat` (epoch microseconds);
    `datetime.isoformat` / `datetime.fromisoformat` are modelled as a
    canonical decimal text encoding `encodeTime` / `decodeTime`, for which
    the symmetric round trip is proved rather than assumed.
  * The Redis string store is modelled as an association list from keys to
    the JSON value stored under the key (`json.dumps`/`json.loads` is the
    identity on such values, so the JSON tree is the stored form).
  * External effects (the Redis `set` outcome, the completion-service
    outcome, `uuid4` draws, and `datetime.now`) enter as explicit
    parameters of the embedded functions.
  * Exceptions raised by a Python function are modelled as `Except` / the
    `Bool` the surrounding `try/except` converts them to, following each
    function's own handler.
-/

namespace DeadInside

/-- `MessageRole` enum from `app/core/llm.py`. -/
inductive MessageRole where
  | user
  | assistant
  | system
deriving DecidableEq, Repr

/-- The string value of a `MessageRole` (the `str`-enum value). -/
def MessageRole.toStr : MessageRole → String
  | .user => "user"
  | .assistant => "assistant"
  | .system => "system"

/-- Parse a role string back into `MessageRole` (pydantic enum validation). -/
def parseRole (s : String) : Option MessageRole :=
  if s = "user" then some .user
  else if s = "assistant" then some .assistant
  else if s = "system" then some .system
  else none

/-- `Message` model from `app/core/llm.py` (timestamps as epoch `Nat`). -/
structure Message where
  id : String
  role : MessageRole
  content : String
  timestamp : Nat
deriving DecidableEq, Repr

/-- `Conversation` model from `app/core/llm.py`. `emotional_state` is an
`int` that pydantic constrains to `0 ≤ _ ≤ 100` at construction; the
constraint is carried as a hypothesis where it matters. -/
structure Conversation where
  id : String
  title : Option String
  messages : List Message
  created_at : Nat
  updated_at : Nat
  character_id : Option String
  emotional_state : Int
deriving DecidableEq, Repr

/-! ### Canonical textual timestamps

`datetime.isoformat` / `datetime.fromisoformat` modelled as decimal
encoding/decoding of the epoch value. -/

/-- The decimal digit character for `n % 10`. -/
def digitChar (n : Nat) : Char := Char.ofNat (48 + n % 10)

/-- Numeric value of a digit character. -/
def digitVal (c : Char) : Nat := c.toNat - 48

/-- Whether `c` is the character of a decimal digit. -/
def isDigitChar (c : Char) : Bool := 48 ≤ c.toNat && c.toNat ≤ 57

/-- Decimal digits of `n`, least significant first. -/
def natToDigitsRev (n : Nat) : List Char :=
  if h : n < 10 then [digitChar n]
  else digitChar n :: natToDigitsRev (n / 10)
termination_by n
decreasing_by exact Nat.div_lt_self (by omega) (by norm_num)

/-- Fold digit characters (most significant first) into a number,
rejecting any non-digit character. -/
def digitsToNatAux (acc : Nat) : List Char → Option Nat
  | [] => some acc
  | c :: cs => if isDigitChar c then digitsToNatAux (acc * 10 + digitVal c) cs else none

/-- Canonical textual form of a timestamp. -/
def encodeTime (t : Nat) : String := ⟨(natToDigitsRev t).reverse⟩

/-- Parse the canonical textual form of a timestamp. -/
def decodeTime (s : String) : Option Nat :=
  if s.data.isEmpty then none else digitsToNatAux 0 s.data

theorem digitVal_digitChar (n : Nat) : digitVal (digitChar n) = n % 10 := by
  have h : n % 10 < 10 := Nat.mod_lt _ (by norm_num)
  unfold digitVal digitChar
  set m := n % 10 with hm
  interval_cases m <;> rfl

theorem isDigitChar_digitChar (n : Nat) : isDigitChar (digitChar n) = true := by
  have h : n % 10 < 10 := Nat.mod_lt _ (by norm_num)
  unfold isDigitChar digitChar
  set m := n % 10 with hm
  interval_cases m <;> rfl

theorem digitsToNatAux_append (acc : Nat) (xs ys : List Char) :
    digitsToNatAux acc (xs ++ ys) =
      (digitsToNatAux acc xs).bind (fun a => digitsToNatAux a ys) := by
  induction xs generalizing acc with
  | nil => rfl
  | cons c cs ih =>
      simp only [List.cons_append, digitsToNatAux]
      by_cases h : isDigitChar c = true
      · simp [h, ih]
      · simp [h]

theorem digitsToNatAux_rev_digits (n : Nat) :
    ∀ acc, digitsToNatAux acc ((natToDigitsRev n).reverse) =
      some (acc * 10 ^ (natToDigitsRev n).length + n) := by
  induction n using Nat.strong_induction_on with
  | _ n ih =>
    intro acc
    by_cases h : n < 10
    · have hmod : n % 10 = n := Nat.mod_eq_of_lt h
      rw [natToDigitsRev, dif_pos h]
      simp [digitsToNatAux, isDigitChar_digitChar, digitVal_digitChar, hmod]
    · have h10 : 10 ≤ n := Nat.le_of_not_lt h
      have hdiv : n / 10 < n := Nat.div_lt_self (by omega) (by norm_num)
      rw [natToDigitsRev, dif_neg h]
      simp only [List.reverse_cons, List.length_cons]
      rw [digitsToNatAux_append acc _ [digitChar n]]
      rw [ih (n / 10) hdiv acc]
      simp only [Option.some_bind, digitsToNatAux, isDigitChar_digitChar, if_true,
        digitVal_digitChar, List.length_cons, pow_succ, ← mul_assoc]
      congr 1
      generalize acc * 10 ^ (natToDigitsRev (n / 10)).length = A
      omega

theorem natToDigitsRev_ne_nil (n : Nat) : natToDigitsRev n ≠ [] := by
  rw [natToDigitsRev]
  by_cases h : n < 10
  · simp [h]
  · simp [h]

/-- The timestamp round trip: parsing the canonical textual form yields
the original value. -/
theorem decodeTime_encodeTime (t : Nat) : decodeTime (encodeTime t) = some t := by
  unfold decodeTime encodeTime
  have hne : (natToDigitsRev t).reverse ≠ [] := by
    simpa using natToDigitsRev_ne_nil t
  simp only [List.isEmpty_iff]
  rw [if_neg (by simpa using hne)]
  rw [digitsToNatAux_rev_digits t 0]
  simp

/-! ### JSON values and `_prepare_for_serialization`

`PyVal` is the Python value universe that flows through
`redis_client._prepare_for_serialization` and `json.dumps`: strings,
ints, `None`, datetimes (`.dt`, anything with `isoformat`), lists and
string-keyed dicts. `json.dumps` / `json.loads` is the identity on
datetime-free values of this shape, so the stored form of a record is the
prepared `PyVal` tree itself. -/

inductive PyVal where
  | str (s : String)
  | int (n : Int)
  | null
  | dt (t : Nat)
  | list (xs : List PyVal)
  | dict (xs : List (String × PyVal))

mutual

/-- `_prepare_for_serialization` from `app/core/redis_client.py`: walk the
value and replace every datetime (`hasattr(value, "isoformat")`) by its
canonical textual form. -/
def prepareVal : PyVal → PyVal
  | .str s => .str s
  | .int n => .int n
  | .null => .null
  | .dt t => .str (encodeTime t)
  | .list xs => .list (prepareList xs)
  | .dict xs => .dict (prepareDict xs)

/-- `_prepare_for_serialization` on the items of a Python list. -/
def prepareList : List PyVal → List PyVal
  | [] => []
  | x :: xs => prepareVal x :: prepareList xs

/-- `_prepare_for_serialization` on the entries of a Python dict. -/
def prepareDict : List (String × PyVal) → List (String × PyVal)
  | [] => []
  | (k, v) :: xs => (k, prepareVal v) :: prepareDict xs

end

/-- `Message.model_dump()`: the dict pydantic produces for a `Message`
(field order is declaration order). -/
def dumpMessage (m : Message) : PyVal :=
  .dict [("id", .str m.id), ("role", .str m.role.toStr),
         ("content", .str m.content), ("timestamp", .dt m.timestamp)]

/-- A Python `Optional[str]` value as a `PyVal`. -/
def optStrVal : Option String → PyVal
  | none => .null
  | some s => .str s

/-- `Conversation.model_dump()`: the dict pydantic produces for a
`Conversation`. -/
def dumpConversation (c : Conversation) : PyVal :=
  .dict [("id", .str c.id), ("title", optStrVal c.title),
         ("messages", .list (c.messages.map dumpMessage)),
         ("created_at", .dt c.created_at), ("updated_at", .dt c.updated_at),
         ("character_id", optStrVal c.character_id),
         ("emotional_state", .int c.emotional_state)]

/-- Read back a Python `Optional[str]` field. -/
def parseOptStr : PyVal → Option (Option String)
  | .null => some none
  | .str s => some (some s)
  | _ => none

/-- Reconstruct one message from its stored dict: the
`datetime.fromisoformat` rewrite in `llm.get_conversation` followed by
pydantic validation of the `Message` fields. -/
def parseMessage : PyVal → Option Message
  | .dict [("id", .str i), ("role", .str r), ("content", .str ct), ("timestamp", .str ts)] =>
      match parseRole r, decodeTime ts with
      | some role, some t => some ⟨i, role, ct, t⟩
      | _, _ => none
  | _ => none

/-- Reconstruct the message list of a stored conversation. -/
def parseMessages : List PyVal → Option (List Message)
  | [] => some []
  | v :: vs =>
      match parseMessage v, parseMessages vs with
      | some m, some ms => some (m :: ms)
      | _, _ => none

/-- Reconstruct a conversation from its stored dict: the
`datetime.fromisoformat` rewrites in `llm.get_conversation` followed by
`Conversation(**data)` validation, including the pydantic bound
`0 ≤ emotional_state ≤ 100`. -/
def parseConversation : PyVal → Option Conversation
  | .dict [("id", .str i), ("title", tv), ("messages", .list mvs),
           ("created_at", .str ca), ("updated_at", .str ua),
           ("character_id", cv), ("emotional_state", .int es)] =>
      match parseOptStr tv, parseMessages mvs, decodeTime ca, decodeTime ua, parseOptStr cv with
      | some t, some ms, some cat, some uat, some ch =>
          if 0 ≤ es ∧ es ≤ 100 then some ⟨i, t, ms, cat, uat, ch, es⟩ else none
      | _, _, _, _, _ => none
  | _ => none

theorem parseRole_toStr (r : MessageRole) : parseRole r.toStr = some r := by
  cases r <;> rfl

theorem parseMessage_prepare_dump (m : Message) :
    parseMessage (prepareVal (dumpMessage m)) = some m := by
  cases m with
  | mk i role ct t =>
      simp [dumpMessage, prepareVal, prepareDict, parseMessage, parseRole_toStr,
        decodeTime_encodeTime]

theorem parseMessages_prepare_dump (ms : List Message) :
    parseMessages (prepareList (ms.map dumpMessage)) = some ms := by
  induction ms with
  | nil => rfl
  | cons m rest ih =>
      simp [prepareList, parseMessages, parseMessage_prepare_dump, ih]

theorem prepareVal_optStrVal (o : Option String) : prepareVal (optStrVal o) = optStrVal o := by
  cases o <;> rfl

theorem parseOptStr_optStrVal (o : Option String) : parseOptStr (optStrVal o) = some o := by
  cases o <;> rfl

/-- The record-level round trip: serializing a conversation the way
`save_conversation` does and parsing it back the way `get_conversation`
does is the identity, provided the conversation satisfies the pydantic
bound on `emotional_state` (every Python `Conversation` value does). -/
theorem parseConversation_prepare_dump (c : Conversation)
    (h0 : 0 ≤ c.emotional_state) (h100 : c.emotional_state ≤ 100) :
    parseConversation (prepareVal (dumpConversation c)) = some c := by
  cases c with
  | mk i t ms cat uat ch es =>
      simp only [dumpConversation, prepareVal, prepareDict, prepareVal_optStrVal]
      simp only [parseConversation, parseOptStr_optStrVal, parseMessages_prepare_dump,
        decodeTime_encodeTime]
      simp_all

/-! ### Record store (`app/core/redis_client.py`)

The Redis keyspace is modelled as a string-keyed association list; keys
are already namespace-split (the `conversation:`/`character:` prefixes
only partition the key space). -/

/-- First-match lookup in a string-keyed association list (Redis `GET`). -/
def lookupKey {α : Type} : List (String × α) → String → Option α
  | [], _ => none
  | (k, v) :: rest, key => if k = key then some v else lookupKey rest key

/-- Key update (Redis `SET`): replace the binding if present, else append. -/
def setKey {α : Type} : List (String × α) → String → α → List (String × α)
  | [], key, v => [(key, v)]
  | (k, w) :: rest, key, v =>
      if k = key then (key, v) :: rest else (k, w) :: setKey rest key v

/-- Key removal (Redis `DELETE`). -/
def delKey {α : Type} : List (String × α) → String → List (String × α)
  | [], _ => []
  | (k, w) :: rest, key => if k = key then delKey rest key else (k, w) :: delKey rest key

/-- The conversation namespace: stored JSON values keyed by id. -/
abbrev ConvStore := List (String × PyVal)

theorem lookupKey_setKey_self {α : Type} (st : List (String × α)) (k : String) (v : α) :
    lookupKey (setKey st k v) k = some v := by
  induction st with
  | nil => simp [setKey, lookupKey]
  | cons hd rest ih =>
      obtain ⟨k0, w⟩ := hd
      by_cases h : k0 = k
      · simp [setKey, h, lookupKey]
      · simp [setKey, h, lookupKey, ih]

theorem lookupKey_setKey_other {α : Type} (st : List (String × α)) (k key : String) (v : α)
    (h : k ≠ key) : lookupKey (setKey st k v) key = lookupKey st key := by
  induction st with
  | nil => simp [setKey, lookupKey, h]
  | cons hd rest ih =>
      obtain ⟨k0, w⟩ := hd
      by_cases h0 : k0 = k
      · subst h0
        simp [setKey, lookupKey, h]
      · simp [setKey, h0, lookupKey, ih]

/-! ### Conversation persistence (`app/core/llm.py`) -/

/-- `llm.get_conversation`: fetch the stored JSON value and rebuild the
`Conversation` (`datetime.fromisoformat` on the timestamp fields, then
`Conversation(**data)`). A missing record yields `None`; parse failures
(possible only for corrupt records no embedded writer produces) are also
folded into `none`. -/
def get_conversation (st : ConvStore) (conversation_id : String) : Option Conversation :=
  (lookupKey st conversation_id).bind parseConversation

/-- `llm.save_conversation`: overwrite `updated_at` with the current time,
dump the model, serialize and store it under the conversation's id.
`setOk` is the outcome of the Redis `set` (its `try/except` turns any
failure into `False` with the store unchanged). -/
def save_conversation (c : Conversation) (now : Nat) (setOk : Bool) (st : ConvStore) :
    Bool × ConvStore :=
  let stamped := { c with updated_at := now }
  if setOk then (true, setKey st stamped.id (prepareVal (dumpConversation stamped)))
  else (false, st)

/-- The fresh conversation `Conversation(character_id=character_id)` built
by `create_new_conversation`, with `uuid4` draw `fresh_id` at time `now`:
default title `None`, empty transcript, `emotional_state = 50`. -/
def mkFreshConversation (fresh_id : String) (character_id : Option String) (now : Nat) :
    Conversation :=
  { id := fresh_id, title := none, messages := [], created_at := now, updated_at := now,
    character_id := character_id, emotional_state := 50 }

/-- `llm.create_new_conversation`: build the fresh conversation and persist
it immediately (the save outcome is ignored). -/
def create_new_conversation (fresh_id : String) (character_id : Option String) (now : Nat)
    (setOk : Bool) (st : ConvStore) : Conversation × ConvStore :=
  let c := mkFreshConversation fresh_id character_id now
  (c, (save_conversation c now setOk st).2)

/-! ### Response generator gateway (`llm.generate_character_response`) -/

/-- `Gender` enum from `app/core/llm.py`. -/
inductive Gender where
  | male
  | female
deriving DecidableEq, Repr

/-- `CharacterContext` from `app/core/llm.py`. -/
structure CharacterContext where
  name : String
  gender : Gender
  mental_state : String
  problem : String
  background : String
  interaction_warning : String
deriving DecidableEq, Repr

/-- `CharacterResponse` from `app/core/llm.py`: the schema of the gateway
reply (`emotional_change` bounded to `-50..50`, required `comment`,
`extra="forbid"`). -/
structure CharacterResponse where
  emotional_change : Int
  comment : String
deriving DecidableEq, Repr

/-- Outcome of the external structured-completion call inside
`generate_character_response`: the transport/model call raises, the reply
text fails `json.loads`, or it parses to a JSON object. -/
inductive CompletionOutcome where
  | failure (msg : String)
  | unparseable (msg : String)
  | parsed (j : List (String × PyVal))

/-- `CharacterResponse(**data)` validation per the pydantic model:
`emotional_change` must be an int with `-50 ≤ _ ≤ 50`, `comment` must be a
string, and no field outside the schema may appear (`extra="forbid"`). -/
def validateCharacterResponse (j : List (String × PyVal)) : Option CharacterResponse :=
  match lookupKey j "emotional_change", lookupKey j "comment" with
  | some (.int n), some (.str c) =>
      if -50 ≤ n ∧ n ≤ 50 ∧ (∀ p ∈ j, p.1 = "emotional_change" ∨ p.1 = "comment")
      then some ⟨n, c⟩ else none
  | _, _ => none

/-- The single failure shape `generate_character_response` propagates: the
bare `raise Exception(f"LLM error: {str(e)}")` in its `except` block. -/
inductive LLMFailure where
  | exception (msg : String)
deriving DecidableEq, Repr

/-- `llm.generate_character_response` after the completion call: validate
the structured reply against the schema; any failure — transport, JSON
parse or schema validation — is re-raised as the one generic exception. -/
def generate_character_response (outcome : CompletionOutcome) :
    Except LLMFailure CharacterResponse :=
  match outcome with
  | .failure msg => .error (.exception ("LLM error: " ++ msg))
  | .unparseable msg => .error (.exception ("LLM error: " ++ msg))
  | .parsed j =>
      match validateCharacterResponse j with
      | some cr => .ok cr
      | none => .error (.exception "LLM error: validation error")

/-- The failure kind a caller of the gateway can observe: the Python
exception class of what was raised (always the generic `Exception`). -/
inductive GatewayFailureKind where
  | noFailure
  | genericException
deriving DecidableEq, Repr

/-- Classify a gateway outcome by its observable failure kind. -/
def failureKindOf : Except LLMFailure CharacterResponse → GatewayFailureKind
  | .ok _ => .noFailure
  | .error (.exception _) => .genericException

/-! ### Session orchestrator (`start_conversation` in
`app/api/routes/legacy_chat.py`) -/

/-- `ChatRequest` from `app/api/routes/legacy_chat.py`. -/
structure ChatRequest where
  message : String
  conversation_id : Option String
  character_id : String
deriving DecidableEq, Repr

/-- `ChatResponse` from `app/api/routes/legacy_chat.py`. -/
structure ChatResponse where
  conversation_id : String
  message_id : String
  response : String
  timestamp : Nat
  emotional_change : Int
  emotional_state : Int
  session_ended : Bool
deriving DecidableEq, Repr

/-- HTTP-visible failures of one `start_conversation` call: the 404s the
route raises itself, the uncaught exception escaping
`get_character_context_from_redis` (surfaced as a 500), and the uncaught
gateway exception (also a 500). -/
inductive TurnError where
  | characterNotFound
  | conversationNotFound
  | contextError (msg : String)
  | gatewayError (msg : String)
deriving DecidableEq, Repr

/-- The exception the `CharacterContext(...)` construction at
`legacy_chat.py:69–75` raises for an existing, non-empty character record.
Each keyword argument is a dict access, evaluated left to right, so the
first missing key raises `KeyError` — stored character records carry
`"problem"`, never `"problems"`, so that access fails — and a record that
did carry every accessed key would still fail pydantic validation, because
the call passes neither `gender` nor `problem`, both required fields of
`llm.CharacterContext` (the `problems=` keyword is not a field). The
construction can never succeed. (`root.py:25–38` contains the corrected
version of this helper; `legacy_chat.py` defines and uses its own.) -/
def character_context_exception : PyVal → String
  | .dict xs =>
      if (lookupKey xs "name").isNone then "KeyError: name"
      else if (lookupKey xs "mental_state").isNone then "KeyError: mental_state"
      else if (lookupKey xs "problems").isNone then "KeyError: problems"
      else if (lookupKey xs "background").isNone then "KeyError: background"
      else if (lookupKey xs "interaction_warning").isNone then
        "KeyError: interaction_warning"
      else "ValidationError: CharacterContext requires gender and problem"
  | _ => "TypeError"

/-- `get_character_context_from_redis` from `app/api/routes/legacy_chat.py`
(lines 63–75): fetch the stored character record; a missing or empty record
404s (`if not character_data` — Python truthiness); an existing record
always raises while building the `CharacterContext`. The function can
never return a context. -/
def get_character_context_from_redis (characters : List (String × PyVal))
    (character_id : String) : Except TurnError CharacterContext :=
  match lookupKey characters character_id with
  | none => .error .characterNotFound
  | some (.dict []) => .error .characterNotFound
  | some data => .error (.contextError (character_context_exception data))

/-- Per-request external inputs of one `start_conversation` call: the two
record namespaces (the character namespace holds the stored JSON records
that `get_character` returns), the request, the completion-service
outcome, the clock, the `uuid4` draws and the Redis `set` outcomes. -/
structure TurnInputs where
  convStore : ConvStore
  characters : List (String × PyVal)
  req : ChatRequest
  completion : CompletionOutcome
  now : Nat
  fresh_conv_id : String
  user_msg_id : String
  assistant_msg_id : String
  save1Ok : Bool
  save2Ok : Bool

/-- Python truthiness of an `Optional[str]`: `None` and `""` are falsy. -/
def optStrFalsy : Option String → Bool
  | none => true
  | some s => s.isEmpty

/-- Lines 84–89 of `start_conversation`: resolve the conversation.
`if request.conversation_id:` is a Python truthiness test, so `None` and
the empty string both take the create-and-persist branch; a truthy id is
fetched and a missing record is a 404. (Unreachable in the source: the
character resolution on line 82 always raises first.) -/
def resolve_conversation (I : TurnInputs) : Except TurnError (Conversation × ConvStore) :=
  match I.req.conversation_id with
  | some cid =>
      if cid.isEmpty then
        .ok (create_new_conversation I.fresh_conv_id (some I.req.character_id) I.now
          I.save1Ok I.convStore)
      else
        match get_conversation I.convStore cid with
        | none => .error .conversationNotFound
        | some conv => .ok (conv, I.convStore)
  | none =>
      .ok (create_new_conversation I.fresh_conv_id (some I.req.character_id) I.now
        I.save1Ok I.convStore)

/-- The `user` message the turn appends (line 91 of the route). -/
def turn_user_message (I : TurnInputs) : Message :=
  ⟨I.user_msg_id, .user, I.req.message, I.now⟩

/-- The `assistant` message built from the gateway's comment (line 100). -/
def turn_assistant_message (I : TurnInputs) (cr : CharacterResponse) : Message :=
  ⟨I.assistant_msg_id, .assistant, cr.comment, I.now⟩

/-- Lines 91–110 of `start_conversation`: the in-memory mutation of the
resolved conversation on a successful gateway call — append the user and
assistant messages, clamp the emotional score, stamp `updated_at`, and
derive a title on the first completed exchange. -/
def turn_final_conversation (I : TurnInputs) (conv : Conversation) (cr : CharacterResponse) :
    Conversation :=
  let conv1 := { conv with messages := conv.messages ++ [turn_user_message I] }
  let conv2 := { conv1 with messages := conv1.messages ++ [turn_assistant_message I cr] }
  let conv3 := { conv2 with
    emotional_state := max 0 (min 100 (conv2.emotional_state + cr.emotional_change)) }
  { conv3 with
    updated_at := I.now,
    title := if optStrFalsy conv3.title ∧ conv3.messages.length = 2
      then some ("Therapy Session: " ++ I.req.message.take 30 ++ "...")
      else conv3.title }

/-- Lines 114–124 of `start_conversation`: the `ChatResponse` of a
successful turn. -/
def turn_response (I : TurnInputs) (conv : Conversation) (cr : CharacterResponse) :
    ChatResponse :=
  let conv4 := turn_final_conversation I conv cr
  { conversation_id := conv4.id, message_id := (turn_assistant_message I cr).id,
    response := cr.comment, timestamp := (turn_assistant_message I cr).timestamp,
    emotional_change := cr.emotional_change, emotional_state := conv4.emotional_state,
    session_ended := decide (conv4.emotional_state ≤ 0 ∨ 100 ≤ conv4.emotional_state) }

/-- The turn orchestrator `start_conversation`: resolve the character
context (line 82 — which in this code always fails: 404 for a missing
record, an uncaught `KeyError`/`ValidationError` for an existing one),
then resolve the conversation, append the user message, call the gateway,
append the assistant reply, clamp the emotional score, stamp `updated_at`,
persist (ignoring the save outcome), and report `session_ended`. Returns
the HTTP result with the store as left by the call. -/
def process_turn (I : TurnInputs) : Except TurnError ChatResponse × ConvStore :=
  match get_character_context_from_redis I.characters I.req.character_id with
  | .error e => (.error e, I.convStore)
  | .ok _ctx =>
      match resolve_conversation I with
      | .error e => (.error e, I.convStore)
      | .ok (conv, st1) =>
          match generate_character_response I.completion with
          | .error (.exception msg) => (.error (.gatewayError msg), st1)
          | .ok cr =>
              (.ok (turn_response I conv cr),
               (save_conversation (turn_final_conversation I conv cr) I.now I.save2Ok st1).2)

/-- One emotional-score update as the orchestrator performs it:
`max(0, min(100, old + delta))`. -/
def turnUpdate (old delta : Int) : Int := max 0 (min 100 (old + delta))

/-- The emotional score after a sequence of turn deltas. -/
def applyDeltas (init : Int) (ds : List Int) : Int := ds.foldl turnUpdate init

theorem turnUpdate_nonneg (old delta : Int) : 0 ≤ turnUpdate old delta := le_max_left 0 _

theorem turnUpdate_le_hundred (old delta : Int) : turnUpdate old delta ≤ 100 :=
  max_le (by norm_num) (min_le_left _ _)

theorem applyDeltas_cons (init d : Int) (ds : List Int) :
    applyDeltas init (d :: ds) = applyDeltas (turnUpdate init d) ds := rfl

theorem applyDeltas_bounds (ds : List Int) (hne : ds ≠ []) (init : Int) :
    0 ≤ applyDeltas init ds ∧ applyDeltas init ds ≤ 100 := by
  induction ds generalizing init with
  | nil => exact absurd rfl hne
  | cons d rest ih =>
      rw [applyDeltas_cons]
      cases rest with
      | nil => exact ⟨turnUpdate_nonneg init d, turnUpdate_le_hundred init d⟩
      | cons d2 r2 => exact ih (by simp) (turnUpdate init d)

theorem save_conversation_eq (c : Conversation) (now : Nat) (setOk : Bool) (st : ConvStore) :
    save_conversation c now setOk st =
      (setOk, if setOk then
         setKey st c.id (prepareVal (dumpConversation { c with updated_at := now }))
       else st) := by
  cases setOk <;> rfl

theorem get_character_context_error_shape (characters : List (String × PyVal))
    (character_id : String) :
    ∃ e, get_character_context_from_redis characters character_id = .error e ∧
      (e = TurnError.characterNotFound ∨ ∃ m, e = TurnError.contextError m) := by
  unfold get_character_context_from_redis
  cases h : lookupKey characters character_id with
  | none => exact ⟨.characterNotFound, rfl, Or.inl rfl⟩
  | some data =>
      cases data with
      | str s =>
          exact ⟨.contextError (character_context_exception (.str s)), rfl, Or.inr ⟨_, rfl⟩⟩
      | int n =>
          exact ⟨.contextError (character_context_exception (.int n)), rfl, Or.inr ⟨_, rfl⟩⟩
      | null =>
          exact ⟨.contextError (character_context_exception .null), rfl, Or.inr ⟨_, rfl⟩⟩
      | dt t =>
          exact ⟨.contextError (character_context_exception (.dt t)), rfl, Or.inr ⟨_, rfl⟩⟩
      | list l =>
          exact ⟨.contextError (character_context_exception (.list l)), rfl, Or.inr ⟨_, rfl⟩⟩
      | dict xs =>
          cases xs with
          | nil => exact ⟨.characterNotFound, rfl, Or.inl rfl⟩
          | cons p rest =>
              exact ⟨.contextError (character_context_exception (.dict (p :: rest))), rfl,
                Or.inr ⟨_, rfl⟩⟩

theorem process_turn_always_error (I : TurnInputs) :
    ∃ e, process_turn I = (.error e, I.convStore) ∧
      (e = TurnError.characterNotFound ∨ ∃ m, e = TurnError.contextError m) := by
  obtain ⟨e, he, hcl⟩ := get_character_context_error_shape I.characters I.req.character_id
  refine ⟨e, ?_, hcl⟩
  unfold process_turn
  rw [he]

theorem turn_final_conversation_spec (I : TurnInputs) (conv : Conversation)
    (cr : CharacterResponse) :
    (turn_final_conversation I conv cr).messages
        = conv.messages ++ [turn_user_message I, turn_assistant_message I cr] ∧
    (turn_final_conversation I conv cr).emotional_state
        = turnUpdate conv.emotional_state cr.emotional_change ∧
    (turn_final_conversation I conv cr).id = conv.id ∧
    (turn_final_conversation I conv cr).updated_at = I.now ∧
    (turn_final_conversation I conv cr).created_at = conv.created_at ∧
    (turn_final_conversation I conv cr).character_id = conv.character_id := by
  refine ⟨?_, ?_, rfl, rfl, rfl, rfl⟩
  · simp [turn_final_conversation]
  · simp [turn_final_conversation, turnUpdate]

/-! ### Character catalog (`redis_client` character namespace and
`llm` batch generation) -/

/-- The character namespace of the store: individual records plus the
auxiliary `characters:list` membership set. -/
structure CharStore where
  records : List (String × PyVal)
  members : List String

/-- Redis `SADD`: add an element to a set. -/
def saddList (xs : List String) (x : String) : List String :=
  if x ∈ xs then xs else xs ++ [x]

/-- Redis `SREM`: remove an element from a set. -/
def sremList (xs : List String) (x : String) : List String :=
  xs.filter (fun y => y != x)

/-- `redis_client.save_character`: serialize and store the record under the
character key; when (and only when) the `set` succeeds, `SADD` the id into
the membership set. `setOk` is the Redis outcome. -/
def save_character (cs : CharStore) (character_id : String) (data : PyVal) (setOk : Bool) :
    Bool × CharStore :=
  if setOk then
    (true, { records := setKey cs.records character_id (prepareVal data),
             members := saddList cs.members character_id })
  else (false, cs)

/-- `redis_client.delete_character`: delete the record, report whether one
existed (`bool` of the Redis delete count), and on success `SREM` the id
from the membership set. -/
def delete_character (cs : CharStore) (character_id : String) : Bool × CharStore :=
  if (lookupKey cs.records character_id).isSome then
    (true, { records := delKey cs.records character_id,
             members := sremList cs.members character_id })
  else (false, cs)

/-- `Character` from `app/core/llm.py` (enum-valued fields carried as
their `str`-enum values). -/
structure Character where
  name : String
  background : String
  shirt : String
  pants : String
  body_type : String
  accessories : List String
  problem : String
  problem_description : String
  mental_state : String
  interaction_warning : String
  voice_instructions : String
  voice_selection : String
  gender : String
deriving DecidableEq, Repr

/-- `CharacterWithId` from `app/core/llm.py`. -/
structure CharacterWithId extends Character where
  id : String
deriving DecidableEq, Repr

/-- `CharacterGenerationResponse` from `app/core/llm.py`. -/
structure CharacterGenerationResponse where
  theme : String
  characters : List CharacterWithId
deriving DecidableEq, Repr

/-- `character.model_dump()` plus the `theme` and `generated_at` keys that
`save_character_generation_response` adds before persisting (pydantic
dumps parent fields first, then `id`). -/
def characterSaveData (theme : String) (now : Nat) (c : CharacterWithId) : PyVal :=
  .dict [("name", .str c.name), ("background", .str c.background),
         ("shirt", .str c.shirt), ("pants", .str c.pants),
         ("body_type", .str c.body_type),
         ("accessories", .list (c.accessories.map PyVal.str)),
         ("problem", .str c.problem),
         ("problem_description", .str c.problem_description),
         ("mental_state", .str c.mental_state),
         ("interaction_warning", .str c.interaction_warning),
         ("voice_instructions", .str c.voice_instructions),
         ("voice_selection", .str c.voice_selection),
         ("gender", .str c.gender), ("id", .str c.id),
         ("theme", .str theme), ("generated_at", .str (encodeTime now))]

/-- The loop of `llm.save_character_generation_response`: persist each
character of the batch individually, in order, returning `False` at the
first failed save (later characters are not attempted; earlier saves are
left in place). `setOk` gives the Redis outcome per character id. -/
def save_characters_loop (theme : String) (now : Nat) (setOk : String → Bool) :
    List CharacterWithId → CharStore → Bool × CharStore
  | [], cs => (true, cs)
  | c :: rest, cs =>
      let r := save_character cs c.id (characterSaveData theme now c) (setOk c.id)
      if r.1 then save_characters_loop theme now setOk rest r.2
      else (false, r.2)

/-- `llm.save_character_generation_response` over a generation response. -/
def save_character_generation_response (theme : String) (now : Nat) (setOk : String → Bool)
    (resp : CharacterGenerationResponse) (cs : CharStore) : Bool × CharStore :=
  save_characters_loop theme now setOk resp.characters cs

/-- `CharacterWithId.from_character(character, str(uuid.uuid4()))` applied
across the batch: replace the model-produced ids with fresh uuid draws. -/
def assignIds (ids : Nat → String) (chars : List CharacterWithId) : List CharacterWithId :=
  chars.enum.map (fun p => { p.2 with id := ids p.1 })

/-- The tail of `llm.generate_characters_from_theme` after the completion
call: re-id the generated characters, attempt the batch save inside a
`try/except` that only prints, and return the response unconditionally —
the save outcome does not influence the returned value. -/
def generate_characters_from_theme (gen : CharacterGenerationResponse) (ids : Nat → String)
    (theme : String) (now : Nat) (setOk : String → Bool) (cs : CharStore) :
    CharacterGenerationResponse × CharStore :=
  let resp := { gen with characters := assignIds ids gen.characters }
  (resp, (save_character_generation_response theme now setOk resp cs).2)

/-! ### Claim theorems -/

/-- A character record in exactly the shape
`save_character_generation_response` persists: it carries a `problem` key
and no `problems` key, so the `character_data["problems"]` access in
`legacy_chat.get_character_context_from_redis` raises `KeyError`. -/
def sampleCharacterRecord : PyVal :=
  .dict [("name", .str "Bo"), ("background", .str "bg"), ("shirt", .str "hoodie"),
         ("pants", .str "jeans"), ("body_type", .str "slim"), ("accessories", .list []),
         ("problem", .str "debt"), ("problem_description", .str "debt and stress"),
         ("mental_state", .str "sad"), ("interaction_warning", .str "none"),
         ("voice_instructions", .str "low"), ("voice_selection", .str "ash"),
         ("gender", .str "male"), ("id", .str "c1"), ("theme", .str "t"),
         ("generated_at", .str "9")]

/-- A conversation record as stored by `save_conversation`, at
`emotional_state = 96` (the Scenario-B precondition). -/
def sampleStoredConversation : PyVal :=
  .dict [("id", .str "cid"), ("title", .str "T"), ("messages", .list []),
         ("created_at", .str "5"), ("updated_at", .str "6"),
         ("character_id", .str "c1"), ("emotional_state", .int 96)]

/-- C1 (code bug): the update rule `start_conversation` defines at lines
105-106 is exactly `clamp(old + delta, 0, 100)` — its result, and the
state after every step of any nonempty delta sequence, lies in `[0, 100]`
— but the orchestrator never performs it: character resolution fails on
every input, so every call returns an error with the store untouched, and
at a concrete Scenario-A input the call dies with `KeyError: problems`
before any turn is processed. -/
theorem emotional_clamp_rule_unreachable :
    (∀ (I : TurnInputs) (conv : Conversation) (cr : CharacterResponse),
       (turn_final_conversation I conv cr).emotional_state
           = turnUpdate conv.emotional_state cr.emotional_change ∧
       0 ≤ (turn_final_conversation I conv cr).emotional_state ∧
       (turn_final_conversation I conv cr).emotional_state ≤ 100) ∧
    (∀ (init d : Int) (ds : List Int),
       0 ≤ applyDeltas init (d :: ds) ∧ applyDeltas init (d :: ds) ≤ 100) ∧
    (∀ I : TurnInputs, ∃ e, process_turn I = (.error e, I.convStore)) ∧
    process_turn
      { convStore := [], characters := [("c1", sampleCharacterRecord)],
        req := ⟨"hello", none, "c1"⟩,
        completion := .parsed [("emotional_change", .int 5), ("comment", .str "hi")],
        now := 1000, fresh_conv_id := "convA", user_msg_id := "m1",
        assistant_msg_id := "m2", save1Ok := true, save2Ok := true }
      = (.error (.contextError "KeyError: problems"), []) := by
  refine ⟨?_, ?_, ?_, rfl⟩
  · intro I conv cr
    have hs := (turn_final_conversation_spec I conv cr).2.1
    refine ⟨hs, ?_, ?_⟩
    · rw [hs]
      exact turnUpdate_nonneg _ _
    · rw [hs]
      exact turnUpdate_le_hundred _ _
  · intro init d ds
    exact applyDeltas_bounds (d :: ds) (by simp) init
  · intro I
    obtain ⟨e, he, h2⟩ := process_turn_always_error I
    exact ⟨e, he⟩

/-- C2 (code bug): line 114 computes `session_ended` as exactly "state ≤ 0
or state ≥ 100" on the post-clamp state — the turn machine in the source
satisfies the claimed iff — but no `ChatResponse` is ever produced: every
call errors before the turn, so the Scenario-B run (96 + delta 10 → 100
with `session_ended = true`) cannot occur; at exactly that input the call
dies with `KeyError: problems`. -/
theorem session_ended_rule_unreachable :
    (∀ (I : TurnInputs) (conv : Conversation) (cr : CharacterResponse),
       ((turn_response I conv cr).session_ended = true ↔
         ((turn_response I conv cr).emotional_state ≤ 0 ∨
          100 ≤ (turn_response I conv cr).emotional_state))) ∧
    (∀ I : TurnInputs, ∃ e, (process_turn I).1 = .error e) ∧
    process_turn
      { convStore := [("cid", sampleStoredConversation)],
        characters := [("c1", sampleCharacterRecord)],
        req := ⟨"msg", some "cid", "c1"⟩,
        completion := .parsed [("emotional_change", .int 10), ("comment", .str "ok")],
        now := 1000, fresh_conv_id := "convX", user_msg_id := "m1",
        assistant_msg_id := "m2", save1Ok := true, save2Ok := true }
      = (.error (.contextError "KeyError: problems"),
         [("cid", sampleStoredConversation)]) := by
  refine ⟨?_, ?_, rfl⟩
  · intro I conv cr
    simp [turn_response, decide_eq_true_eq]
  · intro I
    obtain ⟨e, he, h2⟩ := process_turn_always_error I
    exact ⟨e, by rw [he]⟩

/-- C3 (code bug): the store is untouched by every `start_conversation`
call — in particular by any call whose completion outcome is a failure —
and hence no record containing a dangling user message is ever persisted
by this route; but this holds only because character resolution raises
before the gateway or any store write is reached, not because of the
claimed per-turn all-or-nothing discipline: at a concrete input whose
gateway outcome is a transport failure, the call dies with
`KeyError: problems` without the gateway ever being consulted. -/
theorem turn_store_never_touched :
    (∀ I : TurnInputs, (process_turn I).2 = I.convStore ∧
       ∃ e, (process_turn I).1 = .error e) ∧
    process_turn
      { convStore := [("cid", sampleStoredConversation)],
        characters := [("c1", sampleCharacterRecord)],
        req := ⟨"msg", some "cid", "c1"⟩,
        completion := .failure "boom",
        now := 1000, fresh_conv_id := "convX", user_msg_id := "m1",
        assistant_msg_id := "m2", save1Ok := true, save2Ok := true }
      = (.error (.contextError "KeyError: problems"),
         [("cid", sampleStoredConversation)]) := by
  refine ⟨?_, rfl⟩
  intro I
  obtain ⟨e, he, h2⟩ := process_turn_always_error I
  exact ⟨by rw [he], e, by rw [he]⟩

/-- C4 (code bug): no turn in which the gateway call succeeds and the
persist then fails can occur — every call fails during character
resolution, before the gateway or any persist — so the route never has a
"generated but not saved" outcome to report (and its unreachable success
path at line 112 discards the boolean `save_conversation` returns anyway);
at a concrete input where the final persist would fail
(`save2Ok = false`), the call instead dies with `KeyError: problems`,
store untouched. -/
theorem save_failure_scenario_unreachable :
    (∀ I : TurnInputs, ∃ e, process_turn I = (.error e, I.convStore)) ∧
    process_turn
      { convStore := [("cid", sampleStoredConversation)],
        characters := [("c1", sampleCharacterRecord)],
        req := ⟨"msg", some "cid", "c1"⟩,
        completion := .parsed [("emotional_change", .int 5), ("comment", .str "ok")],
        now := 1000, fresh_conv_id := "convX", user_msg_id := "m1",
        assistant_msg_id := "m2", save1Ok := true, save2Ok := false }
      = (.error (.contextError "KeyError: problems"),
         [("cid", sampleStoredConversation)]) := by
  refine ⟨?_, rfl⟩
  intro I
  obtain ⟨e, he, h2⟩ := process_turn_always_error I
  exact ⟨e, he⟩

/-- C6 (code bug): the claim's antecedent — "the character reference
resolves" — never holds: `get_character_context_from_redis` 404s on a
missing or empty record and raises on every existing one, so every
`start_conversation` call errors with the store untouched before the
conversation-resolution policy (NotFound for an unknown supplied id,
create-and-persist otherwise) can run; concretely, a missing character
404s and an existing one dies with `KeyError: problems`. -/
theorem character_resolution_always_raises :
    (∀ (characters : List (String × PyVal)) (character_id : String),
       ∃ e, get_character_context_from_redis characters character_id = .error e ∧
         (e = TurnError.characterNotFound ∨ ∃ m, e = TurnError.contextError m)) ∧
    (∀ I : TurnInputs, ∃ e, process_turn I = (.error e, I.convStore) ∧
       (e = TurnError.characterNotFound ∨ ∃ m, e = TurnError.contextError m)) ∧
    process_turn
      { convStore := [], characters := [],
        req := ⟨"hi", some "missing", "ghost"⟩,
        completion := .failure "x",
        now := 1000, fresh_conv_id := "convX", user_msg_id := "m1",
        assistant_msg_id := "m2", save1Ok := true, save2Ok := true }
      = (.error .characterNotFound, []) ∧
    process_turn
      { convStore := [], characters := [("c1", sampleCharacterRecord)],
        req := ⟨"hi", none, "c1"⟩,
        completion := .failure "x",
        now := 1000, fresh_conv_id := "convX", user_msg_id := "m1",
        assistant_msg_id := "m2", save1Ok := true, save2Ok := true }
      = (.error (.contextError "KeyError: problems"), []) :=
  ⟨get_character_context_error_shape, process_turn_always_error, rfl, rfl⟩

/-- C5 counterexample: a transport failure and a schema-validation failure
(out-of-bounds delta) are propagated with the same observable failure kind
— the one generic exception — so a transport/model failure is not
distinguishable from a validation failure by its kind. -/
theorem gateway_failure_kinds_counterexample :
    failureKindOf (generate_character_response (.failure "connection reset"))
      = GatewayFailureKind.genericException ∧
    failureKindOf (generate_character_response
        (.parsed [("emotional_change", .int 999), ("comment", .str "hi")]))
      = GatewayFailureKind.genericException ∧
    failureKindOf (generate_character_response (.failure "connection reset"))
      = failureKindOf (generate_character_response
          (.parsed [("emotional_change", .int 999), ("comment", .str "hi")])) :=
  ⟨rfl, rfl, rfl⟩

/-- C5 amended: `generate_character_response` does validate the structured
reply against the declared schema before returning it — it succeeds exactly
on replies whose `emotional_change` is an integer within `-50..50` and
whose `comment` is a string, with no extra fields — and any non-conforming
or unparseable reply, like any transport failure, is a hard failure; but
every failure is raised as the same single generic exception kind, so
transport and validation failures are not distinguishable by kind. -/
theorem gateway_validates_schema :
    (∀ j cr, generate_character_response (.parsed j) = .ok cr ↔
       validateCharacterResponse j = some cr) ∧
    (∀ j cr, validateCharacterResponse j = some cr →
       (-50 ≤ cr.emotional_change ∧ cr.emotional_change ≤ 50 ∧
        lookupKey j "emotional_change" = some (.int cr.emotional_change) ∧
        lookupKey j "comment" = some (.str cr.comment) ∧
        ∀ p ∈ j, p.1 = "emotional_change" ∨ p.1 = "comment")) ∧
    (∀ j, validateCharacterResponse j = none →
       generate_character_response (.parsed j)
         = .error (.exception "LLM error: validation error")) ∧
    (∀ msg, generate_character_response (.failure msg)
       = .error (.exception ("LLM error: " ++ msg))) ∧
    (∀ msg, generate_character_response (.unparseable msg)
       = .error (.exception ("LLM error: " ++ msg))) ∧
    (∀ o, failureKindOf (generate_character_response o) = .noFailure ∨
          failureKindOf (generate_character_response o) = .genericException) := by
  refine ⟨?_, ?_, ?_, fun msg => rfl, fun msg => rfl, ?_⟩
  · intro j cr
    constructor
    · intro h
      cases hv : validateCharacterResponse j with
      | none => simp [generate_character_response, hv] at h
      | some cr2 =>
          simp only [generate_character_response, hv, Except.ok.injEq] at h
          rw [h]
    · intro h
      simp [generate_character_response, h]
  · intro j cr h
    simp only [validateCharacterResponse] at h
    split at h
    next n c hec hcm =>
      split at h
      next hp =>
        obtain ⟨h1, h2, h3⟩ := hp
        obtain rfl : CharacterResponse.mk n c = cr := Option.some.inj h
        exact ⟨h1, h2, hec, hcm, h3⟩
      next => exact absurd h (by simp)
    next => exact absurd h (by simp)
  · intro j h
    simp [generate_character_response, h]
  · intro o
    cases o with
    | failure m => exact Or.inr rfl
    | unparseable m => exact Or.inr rfl
    | parsed j =>
        cases hv : validateCharacterResponse j with
        | none => exact Or.inr (by simp [generate_character_response, failureKindOf, hv])
        | some cr => exact Or.inl (by simp [generate_character_response, failureKindOf, hv])

/-- C5 amended witness: a conforming reply is returned as parsed; an
out-of-bounds delta is rejected as a hard failure. -/
theorem gateway_validates_schema_witness :
    generate_character_response
        (.parsed [("emotional_change", .int 5), ("comment", .str "ok")])
      = .ok ⟨5, "ok"⟩ ∧
    generate_character_response
        (.parsed [("emotional_change", .int 51), ("comment", .str "ok")])
      = .error (.exception "LLM error: validation error") :=
  ⟨(gateway_validates_schema.1 [("emotional_change", .int 5), ("comment", .str "ok")]
      ⟨5, "ok"⟩).mpr rfl,
   gateway_validates_schema.2.2.1 [("emotional_change", .int 51), ("comment", .str "ok")] rfl⟩

/-- C7: the serialize-then-deserialize round trip on conversations is the
identity: parsing the prepared dump of a conversation returns it exactly —
message order, message timestamps, `created_at` and `updated_at` included —
and saving then loading returns precisely the persisted value, i.e. the
input with `updated_at` replaced by the save-time stamp that
`save_conversation` writes. -/
theorem conversation_save_load_roundtrip (c : Conversation) (now : Nat) (st : ConvStore)
    (h0 : 0 ≤ c.emotional_state) (h100 : c.emotional_state ≤ 100) :
    parseConversation (prepareVal (dumpConversation c)) = some c ∧
    get_conversation ((save_conversation c now true st).2) c.id
      = some { c with updated_at := now } := by
  refine ⟨parseConversation_prepare_dump c h0 h100, ?_⟩
  rw [save_conversation_eq]
  show (lookupKey (setKey st c.id
      (prepareVal (dumpConversation { c with updated_at := now }))) c.id).bind
        parseConversation = _
  rw [lookupKey_setKey_self]
  show parseConversation (prepareVal (dumpConversation { c with updated_at := now })) = _
  exact parseConversation_prepare_dump _ h0 h100

/-- C7 witness: a concrete two-message conversation survives the
serialize/deserialize round trip and reads back from the store with only
the save-time `updated_at`. -/
theorem conversation_save_load_roundtrip_witness :
    parseConversation (prepareVal (dumpConversation
      ⟨"cid", some "T", [⟨"m1", .user, "hello", 3⟩, ⟨"m2", .assistant, "hi", 4⟩],
       5, 6, some "ch", 42⟩))
      = some ⟨"cid", some "T", [⟨"m1", .user, "hello", 3⟩, ⟨"m2", .assistant, "hi", 4⟩],
          5, 6, some "ch", 42⟩ ∧
    get_conversation ((save_conversation
      ⟨"cid", some "T", [⟨"m1", .user, "hello", 3⟩, ⟨"m2", .assistant, "hi", 4⟩],
       5, 6, some "ch", 42⟩ 7 true []).2) "cid"
      = some ⟨"cid", some "T", [⟨"m1", .user, "hello", 3⟩, ⟨"m2", .assistant, "hi", 4⟩],
          5, 7, some "ch", 42⟩ :=
  conversation_save_load_roundtrip
    ⟨"cid", some "T", [⟨"m1", .user, "hello", 3⟩, ⟨"m2", .assistant, "hi", 4⟩],
     5, 6, some "ch", 42⟩ 7 [] (by norm_num) (by norm_num)

/-- C8: the character membership set stays consistent with the individual
records — a `save_character` call that reports success leaves the id a
member of the auxiliary set, and a `delete_character` call that reports
success leaves the id absent from it. -/
theorem character_membership_consistency (cs : CharStore) (character_id : String)
    (data : PyVal) (setOk : Bool) :
    ((save_character cs character_id data setOk).1 = true →
       character_id ∈ (save_character cs character_id data setOk).2.members) ∧
    ((delete_character cs character_id).1 = true →
       character_id ∉ (delete_character cs character_id).2.members) := by
  constructor
  · intro h
    cases setOk with
    | false => simp [save_character] at h
    | true =>
        simp only [save_character, if_true]
        unfold saddList
        by_cases hm : character_id ∈ cs.members
        · simp [hm]
        · simp [hm]
  · intro h
    by_cases hp : (lookupKey cs.records character_id).isSome
    · simp only [delete_character, hp, if_true]
      simp [sremList, List.mem_filter]
    · simp [delete_character, hp] at h

/-- C8 witness: saving into an empty store puts the id into the set;
deleting an existing record removes it. -/
theorem character_membership_consistency_witness :
    (save_character ⟨[], []⟩ "c1" (.str "d") true).1 = true ∧
    "c1" ∈ (save_character ⟨[], []⟩ "c1" (.str "d") true).2.members ∧
    (delete_character ⟨[("c1", .str "d")], ["c1"]⟩ "c1").1 = true ∧
    "c1" ∉ (delete_character ⟨[("c1", .str "d")], ["c1"]⟩ "c1").2.members :=
  ⟨rfl, (character_membership_consistency ⟨[], []⟩ "c1" (.str "d") true).1 rfl, rfl,
   (character_membership_consistency ⟨[("c1", .str "d")], ["c1"]⟩ "c1" (.str "d") true).2 rfl⟩

/-- C9 counterexample: a two-character batch whose first individual persist
fails — `generate_characters_from_theme` returns exactly the response it
returns when every persist succeeds: no failure is reported to the caller,
no saved-versus-requested count exists, the result still lists 2
characters, and the store received none of them. -/
theorem batch_save_counterexample :
    (generate_characters_from_theme
        ⟨"t", [⟨⟨"x", "x", "x", "x", "x", [], "x", "x", "x", "x", "x", "x", "x"⟩, "o1"⟩,
               ⟨⟨"y", "y", "y", "y", "y", [], "y", "y", "y", "y", "y", "y", "y"⟩, "o2"⟩]⟩
        (fun n => if n = 0 then "a" else "b") "t" 9 (fun i => i != "a") ⟨[], []⟩).1
      = (generate_characters_from_theme
        ⟨"t", [⟨⟨"x", "x", "x", "x", "x", [], "x", "x", "x", "x", "x", "x", "x"⟩, "o1"⟩,
               ⟨⟨"y", "y", "y", "y", "y", [], "y", "y", "y", "y", "y", "y", "y"⟩, "o2"⟩]⟩
        (fun n => if n = 0 then "a" else "b") "t" 9 (fun _ => true) ⟨[], []⟩).1 ∧
    (generate_characters_from_theme
        ⟨"t", [⟨⟨"x", "x", "x", "x", "x", [], "x", "x", "x", "x", "x", "x", "x"⟩, "o1"⟩,
               ⟨⟨"y", "y", "y", "y", "y", [], "y", "y", "y", "y", "y", "y", "y"⟩, "o2"⟩]⟩
        (fun n => if n = 0 then "a" else "b") "t" 9 (fun i => i != "a") ⟨[], []⟩).1.characters.length
      = 2 ∧
    (generate_characters_from_theme
        ⟨"t", [⟨⟨"x", "x", "x", "x", "x", [], "x", "x", "x", "x", "x", "x", "x"⟩, "o1"⟩,
               ⟨⟨"y", "y", "y", "y", "y", [], "y", "y", "y", "y", "y", "y", "y"⟩, "o2"⟩]⟩
        (fun n => if n = 0 then "a" else "b") "t" 9 (fun i => i != "a") ⟨[], []⟩).2.records
      = [] ∧
    (generate_characters_from_theme
        ⟨"t", [⟨⟨"x", "x", "x", "x", "x", [], "x", "x", "x", "x", "x", "x", "x"⟩, "o1"⟩,
               ⟨⟨"y", "y", "y", "y", "y", [], "y", "y", "y", "y", "y", "y", "y"⟩, "o2"⟩]⟩
        (fun n => if n = 0 then "a" else "b") "t" 9 (fun i => i != "a") ⟨[], []⟩).2.members
      = [] :=
  ⟨rfl, rfl, rfl, rfl⟩

/-- C9 amended: batch generation persists each character individually and
in order, stopping at the first failed persist — the loop's boolean is
`true` iff every save succeeded, and the final store is exactly the saves
of the successful prefix (siblings saved before the failure are kept, never
rolled back; characters after it are not attempted) — but
`generate_characters_from_theme` ignores that outcome and returns the full
generated batch unchanged, with no failure report and no
saved-versus-requested count. -/
theorem batch_save_partial_semantics :
    (∀ theme now setOk chars cs,
       save_characters_loop theme now setOk chars cs =
         (chars.all (fun c => setOk c.id),
          (chars.takeWhile (fun c => setOk c.id)).foldl
            (fun s c => (save_character s c.id (characterSaveData theme now c) true).2) cs)) ∧
    (∀ gen ids theme now setOk cs,
       (generate_characters_from_theme gen ids theme now setOk cs).1
         = { gen with characters := assignIds ids gen.characters }) := by
  constructor
  · intro theme now setOk chars
    induction chars with
    | nil => intro cs; rfl
    | cons c rest ih =>
        intro cs
        cases hs : setOk c.id with
        | false =>
            simp [save_characters_loop, save_character, hs, List.takeWhile_cons]
        | true =>
            simp [save_characters_loop, save_character, hs, List.takeWhile_cons, ih]
  · intro gen ids theme now setOk cs
    rfl

/-- C10: `save_conversation` overwrites `updated_at` with the save-time
clock before persisting — the record written is the dump of the input with
`updated_at := now` — and leaves every other field (`id`, `title`,
`messages`, `created_at`, `character_id`, `emotional_state`) exactly as
given. -/
theorem save_conversation_frame (c : Conversation) (now : Nat) (setOk : Bool)
    (st : ConvStore) :
    save_conversation c now setOk st =
      (setOk, if setOk then
        setKey st c.id (prepareVal (dumpConversation { c with updated_at := now })) else st) ∧
    ({ c with updated_at := now }).updated_at = now ∧
    ({ c with updated_at := now }).id = c.id ∧
    ({ c with updated_at := now }).title = c.title ∧
    ({ c with updated_at := now }).messages = c.messages ∧
    ({ c with updated_at := now }).created_at = c.created_at ∧
    ({ c with updated_at := now }).character_id = c.character_id ∧
    ({ c with updated_at := now }).emotional_state = c.emotional_state :=
  ⟨save_conversation_eq c now setOk st, rfl, rfl, rfl, rfl, rfl, rfl, rfl⟩

end DeadInside
